import Mathlib

/-!
Shallow embedding of the JSDoc-validation rule in
`src/lib/js/rules/valid-jsdoc.js` (the fecs repository).

The rule tracks, per open function, whether a value-carrying `return`
statement was seen (`startFunction` / `addReturn`), and on function exit
(`checkJSDoc`) parses the associated JSDoc comment (parsing is the external
doctrine collaborator, passed in as a function), validates each tag, and
cross-checks documented parameters against the real parameter list.

JavaScript runtime behaviour is modelled explicitly: a thrown `TypeError`
(e.g. reading `.name` of a `null` type) aborts the remaining checks but
keeps the diagnostics already reported, so results carry both the emitted
diagnostics and an optional runtime error.
-/

namespace ValidJsdoc

/-- One entry of the function nesting stack: `{returnPresent: false}`. -/
structure FunctionState where
  returnPresent : Bool
deriving DecidableEq, Repr

/-- A doctrine type expression: either a simple `NameExpression` or any
other shape (union types etc.), whose `.name` field is `undefined`. -/
inductive TypeExpr where
  | nameExpression (name : String)
  | otherType
deriving DecidableEq, Repr

/-- One parsed JSDoc tag as produced by doctrine with `lineNumbers: true`. -/
structure Tag where
  title : String
  name : String
  type : Option TypeExpr
  description : Option String
  lineNumber : Nat
deriving DecidableEq, Repr

/-- A successfully parsed comment: its ordered tag list. -/
structure ParsedComment where
  tags : List Tag
deriving DecidableEq, Repr

/-- The JSDoc comment node: raw text (`value`) and its start location
(`loc.start.line`, 0-based `loc.start.column`). -/
structure Comment where
  value : String
  startLine : Nat
  startColumn0 : Nat
deriving DecidableEq, Repr

/-- Rule options: `requireReturn`, `requireParamDescription` (both default
true) and the `prefer` mapping of tag titles (own properties only). -/
structure Config where
  requireReturn : Bool
  requireParamDescription : Bool
  prefer : List (String × String)
deriving DecidableEq, Repr

/-- The function AST node, reduced to what the rule reads: the names of its
real parameters, in declaration order. -/
structure FnNode where
  params : List String
deriving DecidableEq, Repr

/-- A JavaScript number used in a location override: an integer or `NaN`
(`NaN` arises from `startLine + undefined`). -/
inductive JsNum where
  | num (v : Int)
  | nan
deriving DecidableEq, Repr

/-- A location override passed to `context.report`: a line and optionally a
column. -/
structure Loc where
  line : JsNum
  column : Option JsNum
deriving DecidableEq, Repr

/-- A reported diagnostic: optional location override (none means anchored
at the comment node itself) and the message with substitutions applied. -/
structure Diagnostic where
  loc : Option Loc
  message : String
deriving DecidableEq, Repr

/-- State threaded through the tag loop: `hasReturns`, `hasConstructor`
and the insertion-ordered `params` registry. -/
structure TagState where
  hasReturns : Bool
  hasConstructor : Bool
  params : List (String × Tag)
deriving DecidableEq, Repr

/-- Outcome of (part of) the tag loop: diagnostics reported so far plus
either the resulting state or a runtime error that aborted the loop. -/
inductive TagsOutcome where
  | ok (diags : List Diagnostic) (st : TagState)
  | err (diags : List Diagnostic) (msg : String)
deriving DecidableEq, Repr

/-- Diagnostics reported by an outcome, whether or not it crashed. -/
def TagsOutcome.outDiags : TagsOutcome → List Diagnostic
  | .ok ds _ => ds
  | .err ds _ => ds

/-- Result of one `checkJSDoc` exit check: the stack after the `pop`, the
diagnostics reported, and an uncaught runtime error if one was thrown. -/
structure CheckResult where
  fns : List FunctionState
  diags : List Diagnostic
  error : Option String
deriving DecidableEq, Repr

/-- First-occurrence lookup in an insertion-ordered association list,
modelling string-keyed property access on a plain object. -/
def lookupAssoc {α : Type} : List (String × α) → String → Option α
  | [], _ => none
  | (k, v) :: rest, key => if k = key then some v else lookupAssoc rest key

/-- JavaScript string truthiness for an optional string: `null`/`undefined`
and the empty string are falsy. -/
def strTruthy : Option String → Bool
  | none => false
  | some s => s != ""

/-- Whether the character list starts with the given pattern. -/
def listStartsWith : List Char → List Char → Bool
  | _, [] => true
  | [], _ :: _ => false
  | c :: cs, d :: ds => c == d && listStartsWith cs ds

/-- First index at which the pattern occurs in the character list. -/
def findSubAux (pat : List Char) : List Char → Nat → Option Nat
  | [], i => if listStartsWith [] pat then some i else none
  | c :: rest, i =>
    if listStartsWith (c :: rest) pat then some i
    else findSubAux pat rest (i + 1)

/-- First index of a substring, or none. -/
def strFindSub (s pat : String) : Option Nat := findSubAux pat.data s.data 0

/-- JavaScript `String.prototype.indexOf`: first index, or `-1`. -/
def jsIndexOf (s pat : String) : Int :=
  match strFindSub s pat with
  | some i => (i : Int)
  | none => -1

/-- ASCII lower-casing, modelling `String.prototype.toLowerCase` on the
identifiers the rule compares. -/
def lowerStr (s : String) : String := ⟨s.data.map Char.toLower⟩

/-- The test `/braces/i.test(ex.message)`: does the message contain the
substring "braces", case-insensitively. -/
def hasBracesSignal (msg : String) : Bool := (strFindSub (lowerStr msg) "braces").isSome

/-- One left-to-right pass of `value.replace(/module:/g, "")`. -/
def replaceModuleAux : List Char → List Char
  | 'm' :: 'o' :: 'd' :: 'u' :: 'l' :: 'e' :: ':' :: rest => replaceModuleAux rest
  | c :: rest => c :: replaceModuleAux rest
  | [] => []

/-- `jsdocNode.value.replace(/module:/g, "")`, applied before parsing. -/
def stripModule (s : String) : String := ⟨replaceModuleAux s.data⟩

/-- Splitting the comment text on newlines: `jsdocNode.value.split(/\n/)`. -/
def splitLinesAux : List Char → List Char → List String
  | acc, [] => [⟨acc.reverse⟩]
  | acc, c :: rest =>
    if c = '\n' then (⟨acc.reverse⟩ : String) :: splitLinesAux [] rest
    else splitLinesAux (c :: acc) rest

/-- The `lines` array of the comment value. -/
def splitLines (s : String) : List String := splitLinesAux [] s.data

/-- The fixed canonical type-name map of the rule, keyed by the lowercased
written name. (The source is a plain object literal; the model covers its
nine own properties.) -/
def typeNameMap (s : String) : Option String :=
  if s = "string" then some "string"
  else if s = "boolean" then some "boolean"
  else if s = "number" then some "number"
  else if s = "int" then some "number"
  else if s = "array" then some "Array"
  else if s = "function" then some "Function"
  else if s = "date" then some "Date"
  else if s = "object" then some "Object"
  else if s = "regexp" then some "RegExp"
  else none

/-- `tag.type.name` once `tag.type` is known non-null: `undefined` (none)
unless the type is a `NameExpression`. -/
def typeExprName : TypeExpr → Option String
  | .nameExpression n => some n
  | .otherType => none

/-- The location override `{line: startLine + tag.lineNumber}`. -/
def tagLine (startLine : Nat) (tag : Tag) : Loc :=
  ⟨.num (startLine + tag.lineNumber), none⟩

/-- The `case 'param'` branch of the tag switch: missing-type check,
missing-description check, duplicate check, and recording of non-dotted
names in the registry. -/
def paramTagCheck (cfg : Config) (startLine : Nat) (st : TagState) (tag : Tag) :
    List Diagnostic × TagState :=
  let d1 := if tag.type.isNone then
      [⟨some (tagLine startLine tag),
        "Missing JSDoc parameter type for \"" ++ tag.name ++ "\"."⟩] else []
  let d2 := if !strTruthy tag.description && cfg.requireParamDescription then
      [⟨some (tagLine startLine tag),
        "Missing JSDoc parameter description for \"" ++ tag.name ++ "\"."⟩] else []
  if (lookupAssoc st.params tag.name).isSome then
    (d1 ++ d2 ++ [⟨some (tagLine startLine tag),
        "Duplicate JSDoc parameter \"" ++ tag.name ++ "\"."⟩], st)
  else if tag.name.data.contains '.' then (d1 ++ d2, st)
  else (d1 ++ d2, { st with params := st.params ++ [(tag.name, tag)] })

/-- The else-branch of the return-tag case: missing-type check, then the
unguarded `tag.type.name !== 'void'` description check, which throws when
`tag.type` is null (after the missing-type diagnostic was reported). -/
def returnChecks (startLine : Nat) (st : TagState) (tag : Tag) : TagsOutcome :=
  let d1 := if tag.type.isNone then
      [⟨some (tagLine startLine tag), "Missing JSDoc return type."⟩] else []
  match tag.type with
  | none => .err d1 "TypeError: cannot read name of null"
  | some ty =>
    if typeExprName ty ≠ some "void" ∧ !strTruthy tag.description then
      .ok (d1 ++ [⟨some (tagLine startLine tag), "Missing JSDoc return description."⟩]) st
    else .ok d1 st

/-- The `switch (tag.title)` of the tag loop, short-circuit evaluation of
the unexpected-return condition included. -/
def switchPart (cfg : Config) (functionData : Option FunctionState) (startLine : Nat)
    (st : TagState) (tag : Tag) : TagsOutcome :=
  if tag.title = "param" then
    let r := paramTagCheck cfg startLine st tag
    .ok r.1 r.2
  else if tag.title = "return" ∨ tag.title = "returns" then
    let st' := { st with hasReturns := true }
    if cfg.requireReturn then returnChecks startLine st' tag
    else
      match functionData with
      | none => .err [] "TypeError: cannot read returnPresent of undefined"
      | some fd =>
        if fd.returnPresent then returnChecks startLine st' tag
        else
          match tag.type with
          | none => .err [] "TypeError: cannot read name of null"
          | some ty =>
            if typeExprName ty ≠ some "void" ∧ typeExprName ty ≠ some "undefined" then
              .ok [⟨some (tagLine startLine tag),
                "Unexpected @" ++ tag.title ++ " tag; function has no return statement."⟩] st'
            else returnChecks startLine st' tag
  else if tag.title = "constructor" then .ok [] { st with hasConstructor := true }
  else .ok [] st

/-- The cross-cutting tag-preference check. -/
def preferDiags (cfg : Config) (startLine : Nat) (tag : Tag) : List Diagnostic :=
  match lookupAssoc cfg.prefer tag.title with
  | some p => [⟨some (tagLine startLine tag), "Use @" ++ p ++ " instead."⟩]
  | none => []

/-- The cross-cutting preferred-type-name check: for a `NameExpression`
whose lowercased name is in the canonical map and whose spelling differs,
report with a column located via `lines[tag.lineNumber].indexOf(name)`;
an out-of-range line index throws. -/
def typeCheck (startLine startColumn : Nat) (lines : List String) (tag : Tag) :
    Except String (List Diagnostic) :=
  match tag.type with
  | none => .ok []
  | some ty =>
    match ty with
    | .otherType => .ok []
    | .nameExpression n =>
      match typeNameMap (lowerStr n) with
      | none => .ok []
      | some canon =>
        if n ≠ canon then
          match lines[tag.lineNumber]? with
          | none => .error "TypeError: cannot read indexOf of undefined"
          | some ln =>
            .ok [⟨some ⟨.num (startLine + tag.lineNumber),
                       some (.num ((startColumn : Int) + jsIndexOf ln n))⟩,
                 "Expected JSDoc type name \"" ++ canon ++ "\" but found \"" ++ n ++ "\"."⟩]
        else .ok []

/-- One iteration of `jsdoc.tags.forEach`: title switch, then preference
check, then type-name check. -/
def processTag (cfg : Config) (functionData : Option FunctionState)
    (startLine startColumn : Nat) (lines : List String)
    (st : TagState) (tag : Tag) : TagsOutcome :=
  match switchPart cfg functionData startLine st tag with
  | .err ds m => .err ds m
  | .ok ds st' =>
    let dp := preferDiags cfg startLine tag
    match typeCheck startLine startColumn lines tag with
    | .error m => .err (ds ++ dp) m
    | .ok dt => .ok (ds ++ dp ++ dt) st'

/-- The whole `jsdoc.tags.forEach` loop; an uncaught error stops it. -/
def foldTags (cfg : Config) (functionData : Option FunctionState)
    (startLine startColumn : Nat) (lines : List String) :
    TagState → List Tag → TagsOutcome
  | st, [] => .ok [] st
  | st, tag :: rest =>
    match processTag cfg functionData startLine startColumn lines st tag with
    | .err ds m => .err ds m
    | .ok ds st' =>
      match foldTags cfg functionData startLine startColumn lines st' rest with
      | .err ds2 m => .err (ds ++ ds2) m
      | .ok ds2 st2 => .ok (ds ++ ds2) st2

/-- The missing-@return check after the tag loop; note the short-circuit:
`requireReturn || functionData.returnPresent` only dereferences the popped
state when `requireReturn` is false. -/
def missingReturnCheck (cfg : Config) (functionData : Option FunctionState)
    (st : TagState) : Except String (List Diagnostic) :=
  if !st.hasReturns && !st.hasConstructor then
    if cfg.requireReturn then .ok [⟨none, "Missing JSDoc @return for function."⟩]
    else
      match functionData with
      | none => .error "TypeError: cannot read returnPresent of undefined"
      | some fd =>
        if fd.returnPresent then .ok [⟨none, "Missing JSDoc @return for function."⟩]
        else .ok []
  else .ok []

/-- One iteration of the signature cross-check (`node.params.forEach`):
position `i`, real parameter `name`, against the registry's keys. The
mismatch report's line is `startLine + jsdocParams[i].lineNumber`, and
`.lineNumber` of a string key is `undefined`, so the line is `NaN`. -/
def checkParamAt (startLine : Nat) (registry : List (String × Tag)) (i : Nat)
    (name : String) : List Diagnostic :=
  let keys := registry.map Prod.fst
  match keys[i]? with
  | some dn =>
    if dn ≠ "" ∧ name ≠ dn then
      [⟨some ⟨.nan, none⟩, "Expected JSDoc for \"" ++ name ++ "\" but found \"" ++ dn ++ "\"."⟩]
    else if (lookupAssoc registry name).isNone then
      [⟨none, "Missing JSDoc for parameter \"" ++ name ++ "\"."⟩]
    else []
  | none =>
    if (lookupAssoc registry name).isNone then
      [⟨none, "Missing JSDoc for parameter \"" ++ name ++ "\"."⟩]
    else []

/-- The full signature cross-check over the real parameter list. -/
def paramsCheck (startLine : Nat) (registry : List (String × Tag))
    (realParams : List String) : List Diagnostic :=
  (realParams.enum.map (fun p => checkParamAt startLine registry p.1 p.2)).flatten

/-- Everything `checkJSDoc` does after popping the stack: comment lookup,
parsing (the external parser is a parameter, applied to the text with
`module:` markers stripped), the tag loop, the missing-@return check and
the signature cross-check. Returns the reported diagnostics and an
uncaught runtime error if one was thrown. -/
def exitDiags (cfg : Config) (parse : String → Except String ParsedComment)
    (node : FnNode) (jsdocNode : Option Comment)
    (functionData : Option FunctionState) : List Diagnostic × Option String :=
  match jsdocNode with
  | none => ([], none)
  | some c =>
    match parse (stripModule c.value) with
    | .error msg =>
      if hasBracesSignal msg then ([⟨none, "JSDoc type missing brace."⟩], none)
      else ([⟨none, "JSDoc syntax error."⟩], none)
    | .ok jsdoc =>
      let startLine := c.startLine
      let startColumn := c.startColumn0 + 1
      let lines := splitLines c.value
      match foldTags cfg functionData startLine startColumn lines ⟨false, false, []⟩ jsdoc.tags with
      | .err ds m => (ds, some m)
      | .ok ds st =>
        match missingReturnCheck cfg functionData st with
        | .error m => (ds, some m)
        | .ok dr => (ds ++ dr ++ paramsCheck startLine st.params node.params, none)

/-- `startFunction`: push `{returnPresent: false}`. -/
def startFunction (fns : List FunctionState) : List FunctionState :=
  fns ++ [⟨false⟩]

/-- `addReturn`: if the stack is non-empty and the return statement has a
non-null argument, set `returnPresent` on the top entry. -/
def addReturn (hasArgument : Bool) (fns : List FunctionState) : List FunctionState :=
  match fns.getLast? with
  | none => fns
  | some _ => if hasArgument then fns.dropLast ++ [⟨true⟩] else fns

/-- `checkJSDoc`: pop the stack unconditionally, then run the exit check
(which is skipped entirely when the function has no JSDoc comment). -/
def checkJSDoc (cfg : Config) (parse : String → Except String ParsedComment)
    (node : FnNode) (jsdocNode : Option Comment) (fns : List FunctionState) :
    CheckResult :=
  let functionData := fns.getLast?
  let r := exitDiags cfg parse node jsdocNode functionData
  ⟨fns.dropLast, r.1, r.2⟩

/-- Number of reported diagnostics carrying a given message. -/
def countMsg (m : String) (ds : List Diagnostic) : Nat :=
  ds.countP (fun d => d.message == m)

/-! ### Helper lemmas -/

/-- Character of a string at a given index, used to tell message templates
apart without computing on the substituted parts. -/
def msgCh (s : String) (n : Nat) : Option Char := (s.data.drop n).head?

theorem ne_msg_of_ch (a b : String) (n : Nat) (c₁ c₂ : Char)
    (h₁ : msgCh a n = some c₁) (h₂ : msgCh b n = some c₂) (hc : c₁ ≠ c₂) :
    a ≠ b := by
  intro he
  subst he
  rw [h₁] at h₂
  exact hc (Option.some.inj h₂)

theorem beq_msg_false (a b : String) (n : Nat) (c₁ c₂ : Char)
    (h₁ : msgCh a n = some c₁) (h₂ : msgCh b n = some c₂) (hc : c₁ ≠ c₂) :
    (a == b) = false :=
  beq_eq_false_iff_ne.mpr (ne_msg_of_ch a b n c₁ c₂ h₁ h₂ hc)

theorem lookupAssoc_append_self {α : Type} (l : List (String × α)) (k : String) (v : α)
    (h : lookupAssoc l k = none) : lookupAssoc (l ++ [(k, v)]) k = some v := by
  induction l with
  | nil => simp [lookupAssoc]
  | cons p rest ih =>
    obtain ⟨k', v'⟩ := p
    rw [List.cons_append, lookupAssoc]
    rw [lookupAssoc] at h
    by_cases hk : k' = k
    · rw [if_pos hk] at h
      exact Option.noConfusion h
    · rw [if_neg hk] at h ⊢
      exact ih h

theorem countMsg_nil (m : String) : countMsg m [] = 0 := rfl

theorem countMsg_append (m : String) (l₁ l₂ : List Diagnostic) :
    countMsg m (l₁ ++ l₂) = countMsg m l₁ + countMsg m l₂ :=
  List.countP_append _ _ _

theorem countMsg_paramTagCheck (cfg : Config) (sl : Nat) (st : TagState) (tag : Tag)
    (m : String)
    (hA : (("Missing JSDoc parameter type for \"" ++ tag.name ++ "\".") == m) = false)
    (hB : (("Missing JSDoc parameter description for \"" ++ tag.name ++ "\".") == m) = false)
    (hC : (("Duplicate JSDoc parameter \"" ++ tag.name ++ "\".") == m) = false) :
    countMsg m (paramTagCheck cfg sl st tag).1 = 0 := by
  simp only [paramTagCheck, countMsg]
  split_ifs <;>
    simp [List.countP_append, List.countP_cons, hA, hB, hC]

theorem paramTagCheck_flags (cfg : Config) (sl : Nat) (st : TagState) (tag : Tag) :
    (paramTagCheck cfg sl st tag).2.hasReturns = st.hasReturns ∧
    (paramTagCheck cfg sl st tag).2.hasConstructor = st.hasConstructor := by
  simp only [paramTagCheck]
  split_ifs <;> exact ⟨rfl, rfl⟩

theorem countMsg_preferDiags (cfg : Config) (sl : Nat) (tag : Tag) (m : String)
    (hU : ∀ p, (("Use @" ++ p ++ " instead.") == m) = false) :
    countMsg m (preferDiags cfg sl tag) = 0 := by
  rw [preferDiags]
  cases lookupAssoc cfg.prefer tag.title <;>
    simp [countMsg, List.countP_cons, hU]

theorem typeCheck_ok_of_lt (sl sc : Nat) (lines : List String) (tag : Tag)
    (hln : tag.lineNumber < lines.length) :
    ∃ dt, typeCheck sl sc lines tag = .ok dt := by
  cases hty : tag.type with
  | none => exact ⟨[], by simp only [typeCheck, hty]⟩
  | some ty =>
    cases ty with
    | otherType => exact ⟨[], by simp only [typeCheck, hty]⟩
    | nameExpression n =>
      cases hm : typeNameMap (lowerStr n) with
      | none => exact ⟨[], by simp only [typeCheck, hty, hm]⟩
      | some canon =>
        by_cases hne : n ≠ canon
        · refine ⟨[⟨some ⟨.num (sl + tag.lineNumber),
              some (.num ((sc : Int) + jsIndexOf lines[tag.lineNumber] n))⟩,
              "Expected JSDoc type name \"" ++ canon ++ "\" but found \"" ++ n ++ "\"."⟩], ?_⟩
          simp only [typeCheck, hty, hm]
          rw [if_pos hne, List.getElem?_eq_getElem hln]
        · exact ⟨[], by simp only [typeCheck, hty, hm]; rw [if_neg hne]⟩

theorem typeCheck_msgs (sl sc : Nat) (lines : List String) (tag : Tag) (m : String)
    (hE : ∀ a b, (("Expected JSDoc type name \"" ++ a ++ "\" but found \"" ++ b ++ "\".") == m) = false) :
    ∀ dt, typeCheck sl sc lines tag = .ok dt → countMsg m dt = 0 := by
  intro dt hdt
  cases hty : tag.type with
  | none =>
    simp only [typeCheck, hty] at hdt
    cases hdt
    rfl
  | some ty =>
    cases ty with
    | otherType =>
      simp only [typeCheck, hty] at hdt
      cases hdt
      rfl
    | nameExpression n =>
      cases hm : typeNameMap (lowerStr n) with
      | none =>
        simp only [typeCheck, hty, hm] at hdt
        cases hdt
        rfl
      | some canon =>
        simp only [typeCheck, hty, hm] at hdt
        by_cases hne : n ≠ canon
        · rw [if_pos hne] at hdt
          cases hg : lines[tag.lineNumber]? with
          | none =>
            rw [hg] at hdt
            cases hdt
          | some ln =>
            rw [hg] at hdt
            cases hdt
            simp [countMsg, List.countP_cons, hE]
        · rw [if_neg hne] at hdt
          cases hdt
          rfl

theorem returnChecks_type_some (sl : Nat) (st : TagState) (tag : Tag) (ty : TypeExpr)
    (hty : tag.type = some ty) (m : String)
    (hM : ("Missing JSDoc return type." == m) = false)
    (hD : ("Missing JSDoc return description." == m) = false) :
    ∃ ds, returnChecks sl st tag = .ok ds st ∧ countMsg m ds = 0 := by
  simp only [returnChecks, hty, Option.isNone_some, Bool.false_eq_true, if_false]
  by_cases h : typeExprName ty ≠ some "void" ∧ !strTruthy tag.description
  · rw [if_pos h]
    exact ⟨_, rfl, by simp [countMsg, List.countP_cons, hM, hD]⟩
  · rw [if_neg h]
    exact ⟨_, rfl, rfl⟩

theorem switchPart_type_some (cfg : Config) (fd : FunctionState) (sl : Nat)
    (st : TagState) (tag : Tag) (ty : TypeExpr) (hty : tag.type = some ty)
    (m : String)
    (hM : ("Missing JSDoc return type." == m) = false)
    (hD : ("Missing JSDoc return description." == m) = false)
    (hU : (("Unexpected @" ++ tag.title ++ " tag; function has no return statement.") == m) = false)
    (hA : (("Missing JSDoc parameter type for \"" ++ tag.name ++ "\".") == m) = false)
    (hB : (("Missing JSDoc parameter description for \"" ++ tag.name ++ "\".") == m) = false)
    (hC : (("Duplicate JSDoc parameter \"" ++ tag.name ++ "\".") == m) = false) :
    ∃ ds st', switchPart cfg (some fd) sl st tag = .ok ds st' ∧ countMsg m ds = 0 := by
  by_cases hp : tag.title = "param"
  · refine ⟨(paramTagCheck cfg sl st tag).1, (paramTagCheck cfg sl st tag).2, ?_, ?_⟩
    · rw [switchPart, if_pos hp]
    · exact countMsg_paramTagCheck cfg sl st tag m hA hB hC
  · by_cases hr : tag.title = "return" ∨ tag.title = "returns"
    · obtain ⟨ds, hds, hcount⟩ :=
        returnChecks_type_some sl { st with hasReturns := true } tag ty hty m hM hD
      by_cases hrr : cfg.requireReturn = true
      · refine ⟨ds, { st with hasReturns := true }, ?_, hcount⟩
        simp only [switchPart, if_neg hp, if_pos hr, hrr, if_true]
        exact hds
      · have hrr' : cfg.requireReturn = false := Bool.eq_false_iff.mpr hrr
        by_cases hfp : fd.returnPresent = true
        · refine ⟨ds, { st with hasReturns := true }, ?_, hcount⟩
          simp only [switchPart, if_neg hp, if_pos hr, hrr', Bool.false_eq_true, if_false,
            hfp, if_true]
          exact hds
        · have hfp' : fd.returnPresent = false := Bool.eq_false_iff.mpr hfp
          by_cases hcnd : typeExprName ty ≠ some "void" ∧ typeExprName ty ≠ some "undefined"
          · refine ⟨[⟨some (tagLine sl tag),
                "Unexpected @" ++ tag.title ++ " tag; function has no return statement."⟩],
              { st with hasReturns := true }, ?_, ?_⟩
            · simp only [switchPart, if_neg hp, if_pos hr, hrr', Bool.false_eq_true, if_false,
                hfp', hty]
              rw [if_pos hcnd]
            · simp [countMsg, List.countP_cons, hU]
          · refine ⟨ds, { st with hasReturns := true }, ?_, hcount⟩
            simp only [switchPart, if_neg hp, if_pos hr, hrr', Bool.false_eq_true, if_false,
              hfp', hty]
            rw [if_neg hcnd]
            exact hds
    · by_cases hc : tag.title = "constructor"
      · refine ⟨[], { st with hasConstructor := true }, ?_, rfl⟩
        rw [switchPart, if_neg hp, if_neg hr, if_pos hc]
      · refine ⟨[], st, ?_, rfl⟩
        rw [switchPart, if_neg hp, if_neg hr, if_neg hc]

theorem processTag_clean (cfg : Config) (fdo : Option FunctionState)
    (sl sc : Nat) (lines : List String) (st : TagState) (tag : Tag)
    (hr : tag.title ≠ "return") (hrs : tag.title ≠ "returns")
    (hcon : tag.title ≠ "constructor")
    (hln : tag.lineNumber < lines.length) :
    ∃ ds st', processTag cfg fdo sl sc lines st tag = .ok ds st' ∧
      st'.hasReturns = st.hasReturns ∧ st'.hasConstructor = st.hasConstructor ∧
      countMsg "Missing JSDoc @return for function." ds = 0 := by
  obtain ⟨dt, hdt⟩ := typeCheck_ok_of_lt sl sc lines tag hln
  have hdt0 : countMsg "Missing JSDoc @return for function." dt = 0 :=
    typeCheck_msgs sl sc lines tag _
      (fun a b => beq_msg_false ("Expected JSDoc type name \"" ++ a ++ "\" but found \"" ++ b ++ "\".")
        "Missing JSDoc @return for function." 0 'E' 'M' rfl rfl (by decide)) dt hdt
  have hpd0 : countMsg "Missing JSDoc @return for function." (preferDiags cfg sl tag) = 0 :=
    countMsg_preferDiags cfg sl tag _
      (fun p => beq_msg_false ("Use @" ++ p ++ " instead.") "Missing JSDoc @return for function."
        0 'U' 'M' rfl rfl (by decide))
  by_cases hp : tag.title = "param"
  · have hsw : switchPart cfg fdo sl st tag =
        .ok (paramTagCheck cfg sl st tag).1 (paramTagCheck cfg sl st tag).2 := by
      rw [switchPart, if_pos hp]
    refine ⟨(paramTagCheck cfg sl st tag).1 ++ preferDiags cfg sl tag ++ dt,
      (paramTagCheck cfg sl st tag).2, ?_, (paramTagCheck_flags cfg sl st tag).1,
      (paramTagCheck_flags cfg sl st tag).2, ?_⟩
    · simp only [processTag, hsw, hdt]
    · rw [countMsg_append, countMsg_append, hpd0, hdt0,
        countMsg_paramTagCheck cfg sl st tag _
          (beq_msg_false ("Missing JSDoc parameter type for \"" ++ tag.name ++ "\".")
            "Missing JSDoc @return for function." 14 'p' '@' rfl rfl (by decide))
          (beq_msg_false ("Missing JSDoc parameter description for \"" ++ tag.name ++ "\".")
            "Missing JSDoc @return for function." 14 'p' '@' rfl rfl (by decide))
          (beq_msg_false ("Duplicate JSDoc parameter \"" ++ tag.name ++ "\".")
            "Missing JSDoc @return for function." 0 'D' 'M' rfl rfl (by decide))]
  · have hor : ¬(tag.title = "return" ∨ tag.title = "returns") := not_or.mpr ⟨hr, hrs⟩
    have hsw : switchPart cfg fdo sl st tag = .ok [] st := by
      rw [switchPart, if_neg hp, if_neg hor, if_neg hcon]
    refine ⟨[] ++ preferDiags cfg sl tag ++ dt, st, ?_, rfl, rfl, ?_⟩
    · simp only [processTag, hsw, hdt]
    · rw [countMsg_append, countMsg_append, countMsg_nil, hpd0, hdt0]

theorem foldTags_clean (cfg : Config) (fdo : Option FunctionState)
    (sl sc : Nat) (lines : List String) :
    ∀ (tags : List Tag) (st : TagState),
      (∀ t ∈ tags, t.title ≠ "return" ∧ t.title ≠ "returns" ∧ t.title ≠ "constructor" ∧
        t.lineNumber < lines.length) →
      ∃ ds st', foldTags cfg fdo sl sc lines st tags = .ok ds st' ∧
        st'.hasReturns = st.hasReturns ∧ st'.hasConstructor = st.hasConstructor ∧
        countMsg "Missing JSDoc @return for function." ds = 0
  | [], st, _ => ⟨[], st, rfl, rfl, rfl, rfl⟩
  | tag :: rest, st, h => by
    have h0 := h tag (List.mem_cons_self tag rest)
    obtain ⟨ds, st', hpt, hhr, hhc, hcm⟩ :=
      processTag_clean cfg fdo sl sc lines st tag h0.1 h0.2.1 h0.2.2.1 h0.2.2.2
    obtain ⟨ds2, st2, hft, hhr2, hhc2, hcm2⟩ :=
      foldTags_clean cfg fdo sl sc lines rest st'
        (fun t ht => h t (List.mem_cons_of_mem tag ht))
    refine ⟨ds ++ ds2, st2, ?_, hhr2.trans hhr, hhc2.trans hhc, ?_⟩
    · simp only [foldTags, hpt, hft]
    · rw [countMsg_append, hcm, hcm2]

theorem countMsg_checkParamAt (sl : Nat) (reg : List (String × Tag)) (i : Nat)
    (nm : String) :
    countMsg "Missing JSDoc @return for function." (checkParamAt sl reg i nm) = 0 := by
  have hF := beq_msg_false ("Missing JSDoc for parameter \"" ++ nm ++ "\".")
    "Missing JSDoc @return for function." 14 'f' '@' rfl rfl (by decide)
  cases hk : (reg.map Prod.fst)[i]? with
  | none =>
    simp only [checkParamAt, hk]
    split_ifs <;> simp [countMsg, List.countP_cons, hF]
  | some dn =>
    have hE' := beq_msg_false ("Expected JSDoc for \"" ++ nm ++ "\" but found \"" ++ dn ++ "\".")
      "Missing JSDoc @return for function." 0 'E' 'M' rfl rfl (by decide)
    simp only [checkParamAt, hk]
    split_ifs <;> simp [countMsg, List.countP_cons, hE', hF]

theorem countMsg_paramsCheck (sl : Nat) (reg : List (String × Tag)) (ps : List String) :
    countMsg "Missing JSDoc @return for function." (paramsCheck sl reg ps) = 0 := by
  rw [paramsCheck, countMsg, List.countP_eq_zero]
  intro d hd
  rw [List.mem_flatten] at hd
  obtain ⟨l, hl, hdl⟩ := hd
  rw [List.mem_map] at hl
  obtain ⟨p, hp, rfl⟩ := hl
  have h0 := countMsg_checkParamAt sl reg p.1 p.2
  rw [countMsg, List.countP_eq_zero] at h0
  exact h0 d hdl

/-! ### Claim theorems -/

/-- Claim C9: observing a return statement mutates only the top (innermost)
entry of the nesting stack, and only when the return carries a non-null
argument; a bare return never sets `returnPresent`, and a return observed
while the stack is empty is a no-op. -/
theorem claim_C9_add_return (fns : List FunctionState) (b : Bool) (h : fns ≠ []) :
    addReturn false fns = fns ∧ addReturn b [] = [] ∧
    addReturn true fns = fns.dropLast ++ [⟨true⟩] := by
  refine ⟨?_, rfl, ?_⟩
  · cases hl : fns.getLast? <;> simp [addReturn, hl]
  · cases hl : fns.getLast? with
    | none => exact absurd (List.getLast?_eq_none_iff.mp hl) h
    | some a => simp [addReturn, hl]

theorem claim_C9_add_return_witness :
    ([⟨false⟩] : List FunctionState) ≠ [] ∧
    (addReturn false [⟨false⟩] = [⟨false⟩] ∧ addReturn true [] = [] ∧
     addReturn true [⟨false⟩] = ([⟨false⟩] : List FunctionState).dropLast ++ [⟨true⟩]) :=
  ⟨by decide, claim_C9_add_return [⟨false⟩] true (by decide)⟩

/-- Claim C10: the exit check pops the function's record from the nesting
stack unconditionally, before and regardless of whether a comment exists;
a function with no comment yields no diagnostics, and a paired
enter/exit preserves the stack depth. -/
theorem claim_C10_unconditional_pop (cfg : Config)
    (parse : String → Except String ParsedComment) (node : FnNode)
    (jn : Option Comment) (fns : List FunctionState) :
    (checkJSDoc cfg parse node jn fns).fns = fns.dropLast ∧
    checkJSDoc cfg parse node none fns = ⟨fns.dropLast, [], none⟩ ∧
    ((checkJSDoc cfg parse node jn (startFunction fns)).fns).length = fns.length := by
  refine ⟨rfl, rfl, ?_⟩
  show (startFunction fns).dropLast.length = fns.length
  simp [startFunction]

/-- Claim C1 (code bug): on a function whose comment parses successfully
and contains a returns tag with no type expression, the rule reports
"Missing JSDoc return type." but then throws a TypeError evaluating
`tag.type.name`, so the remaining checks do not complete. -/
theorem claim_C1_return_tag_without_type_throws :
    checkJSDoc ⟨true, true, []⟩
      (fun _ => .ok ⟨[⟨"returns", "", none, none, 1⟩]⟩)
      ⟨[]⟩ (some ⟨"*\n * @returns x\n ", 10, 0⟩) [⟨false⟩] =
    ⟨[], [⟨some ⟨.num 11, none⟩, "Missing JSDoc return type."⟩],
     some "TypeError: cannot read name of null"⟩ := by
  rfl

/-- Claim C4: with real parameters (a, b, c) and recorded documented names
(a, x, c), the signature cross-check reports exactly one mismatch, for
position 2, and nothing for positions 1 and 3. -/
theorem claim_C4_positional_mismatch (sl : Nat) (ta tx tc : Tag) :
    paramsCheck sl [("a", ta), ("x", tx), ("c", tc)] ["a", "b", "c"] =
      [⟨some ⟨.nan, none⟩, "Expected JSDoc for \"b\" but found \"x\"."⟩] := by
  rfl

/-- Claim C7: when the comment text fails to parse, exactly one diagnostic
is reported, anchored at the comment node with no location override,
classified by the case-insensitive braces signal in the parser's message,
and no further checks run. -/
theorem claim_C7_parse_failure (cfg : Config)
    (parse : String → Except String ParsedComment) (node : FnNode)
    (c : Comment) (fns : List FunctionState) (msg : String)
    (hp : parse (stripModule c.value) = .error msg) :
    checkJSDoc cfg parse node (some c) fns =
      ⟨fns.dropLast,
       [⟨none, if hasBracesSignal msg then "JSDoc type missing brace."
               else "JSDoc syntax error."⟩],
       none⟩ := by
  simp only [checkJSDoc, exitDiags, hp]
  cases hb : hasBracesSignal msg <;> simp [hb]

theorem claim_C7_parse_failure_witness :
    ((fun _ => .error "unexpected Braces") (stripModule "* x") =
      (.error "unexpected Braces" : Except String ParsedComment)) ∧
    checkJSDoc ⟨true, true, []⟩ (fun _ => .error "unexpected Braces")
      ⟨[]⟩ (some ⟨"* x", 3, 2⟩) [⟨false⟩] =
      ⟨[], [⟨none, if hasBracesSignal "unexpected Braces" then "JSDoc type missing brace."
                   else "JSDoc syntax error."⟩], none⟩ :=
  ⟨rfl, claim_C7_parse_failure ⟨true, true, []⟩ (fun _ => .error "unexpected Braces")
    ⟨[]⟩ ⟨"* x", 3, 2⟩ [⟨false⟩] "unexpected Braces" rfl⟩

/-- Claim C5: a real parameter recorded by no param tag at all, at whose
position no differently-named documented parameter sits, gets exactly one
"Missing JSDoc for parameter" diagnostic for its name. -/
theorem claim_C5_undocumented_param (sl : Nat) (registry : List (String × Tag))
    (i : Nat) (name : String)
    (hundoc : lookupAssoc registry name = none)
    (hpos : ∀ dn, (registry.map Prod.fst)[i]? = some dn → dn = name) :
    checkParamAt sl registry i name =
      [⟨none, "Missing JSDoc for parameter \"" ++ name ++ "\"."⟩] := by
  rw [checkParamAt]
  cases hk : (registry.map Prod.fst)[i]? with
  | none => simp [hundoc]
  | some dn =>
    have hdn : dn = name := hpos dn hk
    subst hdn
    simp [hundoc]

/-- Claim C2: with a successfully parsed comment containing no
return/returns tag and no constructor tag, exactly one "Missing JSDoc
@return for function." diagnostic is reported when `requireReturn` is true
(regardless of the body) or when the body contained a value-carrying
return; none is reported when `requireReturn` is false and the body had no
value-carrying return. The exit check finishes without a runtime error. -/
theorem claim_C2_missing_return_diagnostic (cfg : Config)
    (parse : String → Except String ParsedComment) (node : FnNode) (c : Comment)
    (fns : List FunctionState) (pc : ParsedComment) (fd : FunctionState)
    (hp : parse (stripModule c.value) = .ok pc)
    (hfd : fns.getLast? = some fd)
    (ht : ∀ t ∈ pc.tags, t.title ≠ "return" ∧ t.title ≠ "returns" ∧
      t.title ≠ "constructor" ∧ t.lineNumber < (splitLines c.value).length) :
    countMsg "Missing JSDoc @return for function."
        (checkJSDoc cfg parse node (some c) fns).diags =
      (if cfg.requireReturn = true ∨ fd.returnPresent = true then 1 else 0) ∧
    (checkJSDoc cfg parse node (some c) fns).error = none := by
  obtain ⟨ds, st', hft, hhr, hhc, hcm⟩ :=
    foldTags_clean cfg fns.getLast? c.startLine (c.startColumn0 + 1) (splitLines c.value)
      pc.tags ⟨false, false, []⟩ ht
  have hhr' : st'.hasReturns = false := hhr
  have hhc' : st'.hasConstructor = false := hhc
  have hmid : missingReturnCheck cfg fns.getLast? st' =
      .ok (if cfg.requireReturn = true ∨ fd.returnPresent = true then
        [⟨none, "Missing JSDoc @return for function."⟩] else []) := by
    simp only [missingReturnCheck, hhr', hhc', Bool.not_false, Bool.and_self, if_true]
    cases hq : cfg.requireReturn with
    | true => simp [hq]
    | false =>
      rw [hfd]
      cases hw : fd.returnPresent with
      | true => simp [hq, hw]
      | false => simp [hq, hw]
  have hed : exitDiags cfg parse node (some c) fns.getLast? =
      (ds ++ (if cfg.requireReturn = true ∨ fd.returnPresent = true then
          [⟨none, "Missing JSDoc @return for function."⟩] else []) ++
        paramsCheck c.startLine st'.params node.params, none) := by
    simp only [exitDiags, hp, hft, hmid]
  have hdiag : (checkJSDoc cfg parse node (some c) fns).diags =
      (exitDiags cfg parse node (some c) fns.getLast?).1 := rfl
  have herr : (checkJSDoc cfg parse node (some c) fns).error =
      (exitDiags cfg parse node (some c) fns.getLast?).2 := rfl
  constructor
  · rw [hdiag, hed]
    rw [countMsg_append, countMsg_append, hcm, countMsg_paramsCheck]
    by_cases hcond : cfg.requireReturn = true ∨ fd.returnPresent = true
    · rw [if_pos hcond, if_pos hcond]
      simp [countMsg, List.countP_cons]
    · rw [if_neg hcond, if_neg hcond]
      rfl
  · rw [herr, hed]

theorem claim_C2_missing_return_diagnostic_witness :
    ((fun _ => Except.ok ⟨[]⟩ : String → Except String ParsedComment)
      (stripModule (⟨"*", 1, 0⟩ : Comment).value) = .ok ⟨[]⟩) ∧
    (([⟨false⟩] : List FunctionState).getLast? = some ⟨false⟩) ∧
    (∀ t ∈ (⟨[]⟩ : ParsedComment).tags, t.title ≠ "return" ∧ t.title ≠ "returns" ∧
      t.title ≠ "constructor" ∧
      t.lineNumber < (splitLines (⟨"*", 1, 0⟩ : Comment).value).length) ∧
    (countMsg "Missing JSDoc @return for function."
        (checkJSDoc ⟨true, true, []⟩ (fun _ => Except.ok ⟨[]⟩) ⟨[]⟩
          (some ⟨"*", 1, 0⟩) [⟨false⟩]).diags =
      (if (⟨true, true, []⟩ : Config).requireReturn = true ∨
          (⟨false⟩ : FunctionState).returnPresent = true then 1 else 0) ∧
     (checkJSDoc ⟨true, true, []⟩ (fun _ => Except.ok ⟨[]⟩) ⟨[]⟩
        (some ⟨"*", 1, 0⟩) [⟨false⟩]).error = none) :=
  ⟨rfl, rfl, by simp,
   claim_C2_missing_return_diagnostic ⟨true, true, []⟩ (fun _ => Except.ok ⟨[]⟩) ⟨[]⟩
     ⟨"*", 1, 0⟩ [⟨false⟩] ⟨[]⟩ ⟨false⟩ rfl rfl (by simp)⟩

/-- Claim C3: with `requireReturn` false and no value-carrying return
observed, a return/returns tag whose type name is neither void nor
undefined yields exactly one "Unexpected @return/@returns tag" diagnostic
(spelling matching the tag title), and the missing-return-type and
missing-return-description checks do not fire for that tag. -/
theorem claim_C3_unexpected_return_tag (cfg : Config) (fd : FunctionState)
    (sl sc : Nat) (lines : List String) (st : TagState) (tag : Tag) (ty : TypeExpr)
    (hrr : cfg.requireReturn = false)
    (hrp : fd.returnPresent = false)
    (htitle : tag.title = "return" ∨ tag.title = "returns")
    (hty : tag.type = some ty)
    (hv : typeExprName ty ≠ some "void")
    (hu : typeExprName ty ≠ some "undefined") :
    countMsg ("Unexpected @" ++ tag.title ++ " tag; function has no return statement.")
        (processTag cfg (some fd) sl sc lines st tag).outDiags = 1 ∧
    countMsg "Missing JSDoc return type."
        (processTag cfg (some fd) sl sc lines st tag).outDiags = 0 ∧
    countMsg "Missing JSDoc return description."
        (processTag cfg (some fd) sl sc lines st tag).outDiags = 0 := by
  have hpar : tag.title ≠ "param" := by
    rcases htitle with h | h <;> rw [h] <;> decide
  have hsw : switchPart cfg (some fd) sl st tag =
      .ok [⟨some (tagLine sl tag),
        "Unexpected @" ++ tag.title ++ " tag; function has no return statement."⟩]
        { st with hasReturns := true } := by
    rw [switchPart, if_neg hpar, if_pos htitle]
    simp only [hrr, Bool.false_eq_true, if_false, hrp, hty]
    rw [if_pos (And.intro hv hu)]
  have hu1 : countMsg ("Unexpected @" ++ tag.title ++ " tag; function has no return statement.")
      [(⟨some (tagLine sl tag),
        "Unexpected @" ++ tag.title ++ " tag; function has no return statement."⟩ : Diagnostic)] = 1 := by
    simp [countMsg, List.countP_cons]
  have hu0M : countMsg "Missing JSDoc return type."
      [(⟨some (tagLine sl tag),
        "Unexpected @" ++ tag.title ++ " tag; function has no return statement."⟩ : Diagnostic)] = 0 := by
    simp [countMsg, List.countP_cons,
      beq_msg_false ("Unexpected @" ++ tag.title ++ " tag; function has no return statement.")
        "Missing JSDoc return type." 0 'U' 'M' rfl rfl (by decide)]
  have hu0D : countMsg "Missing JSDoc return description."
      [(⟨some (tagLine sl tag),
        "Unexpected @" ++ tag.title ++ " tag; function has no return statement."⟩ : Diagnostic)] = 0 := by
    simp [countMsg, List.countP_cons,
      beq_msg_false ("Unexpected @" ++ tag.title ++ " tag; function has no return statement.")
        "Missing JSDoc return description." 0 'U' 'M' rfl rfl (by decide)]
  have hp1 : countMsg ("Unexpected @" ++ tag.title ++ " tag; function has no return statement.")
      (preferDiags cfg sl tag) = 0 :=
    countMsg_preferDiags cfg sl tag _
      (fun p => beq_msg_false ("Use @" ++ p ++ " instead.") _ 1 's' 'n' rfl rfl (by decide))
  have hpM : countMsg "Missing JSDoc return type." (preferDiags cfg sl tag) = 0 :=
    countMsg_preferDiags cfg sl tag _
      (fun p => beq_msg_false ("Use @" ++ p ++ " instead.") _ 0 'U' 'M' rfl rfl (by decide))
  have hpD : countMsg "Missing JSDoc return description." (preferDiags cfg sl tag) = 0 :=
    countMsg_preferDiags cfg sl tag _
      (fun p => beq_msg_false ("Use @" ++ p ++ " instead.") _ 0 'U' 'M' rfl rfl (by decide))
  rcases hres : typeCheck sl sc lines tag with m | dt
  · have hpt : (processTag cfg (some fd) sl sc lines st tag).outDiags =
        [⟨some (tagLine sl tag),
          "Unexpected @" ++ tag.title ++ " tag; function has no return statement."⟩] ++
          preferDiags cfg sl tag := by
      simp only [processTag, hsw, hres, TagsOutcome.outDiags]
    rw [hpt]
    rw [countMsg_append, countMsg_append, countMsg_append]
    rw [hu1, hu0M, hu0D, hp1, hpM, hpD]
    exact ⟨rfl, rfl, rfl⟩
  · have htc1 : countMsg ("Unexpected @" ++ tag.title ++ " tag; function has no return statement.") dt = 0 :=
      typeCheck_msgs sl sc lines tag _
        (fun a b => beq_msg_false ("Expected JSDoc type name \"" ++ a ++ "\" but found \"" ++ b ++ "\".")
          ("Unexpected @" ++ tag.title ++ " tag; function has no return statement.")
          0 'E' 'U' rfl rfl (by decide)) dt hres
    have htcM : countMsg "Missing JSDoc return type." dt = 0 :=
      typeCheck_msgs sl sc lines tag _
        (fun a b => beq_msg_false ("Expected JSDoc type name \"" ++ a ++ "\" but found \"" ++ b ++ "\".")
          "Missing JSDoc return type." 0 'E' 'M' rfl rfl (by decide)) dt hres
    have htcD : countMsg "Missing JSDoc return description." dt = 0 :=
      typeCheck_msgs sl sc lines tag _
        (fun a b => beq_msg_false ("Expected JSDoc type name \"" ++ a ++ "\" but found \"" ++ b ++ "\".")
          "Missing JSDoc return description." 0 'E' 'M' rfl rfl (by decide)) dt hres
    have hpt : (processTag cfg (some fd) sl sc lines st tag).outDiags =
        [⟨some (tagLine sl tag),
          "Unexpected @" ++ tag.title ++ " tag; function has no return statement."⟩] ++
          preferDiags cfg sl tag ++ dt := by
      simp only [processTag, hsw, hres, TagsOutcome.outDiags]
    rw [hpt]
    rw [countMsg_append, countMsg_append, countMsg_append, countMsg_append, countMsg_append,
      countMsg_append]
    rw [hu1, hu0M, hu0D, hp1, hpM, hpD, htc1, htcM, htcD]
    exact ⟨rfl, rfl, rfl⟩

theorem claim_C3_unexpected_return_tag_witness :
    ((⟨false, true, []⟩ : Config).requireReturn = false) ∧
    ((⟨false⟩ : FunctionState).returnPresent = false) ∧
    ((⟨"returns", "", some (.nameExpression "number"), none, 0⟩ : Tag).title = "return" ∨
     (⟨"returns", "", some (.nameExpression "number"), none, 0⟩ : Tag).title = "returns") ∧
    ((⟨"returns", "", some (.nameExpression "number"), none, 0⟩ : Tag).type =
      some (.nameExpression "number")) ∧
    typeExprName (.nameExpression "number") ≠ some "void" ∧
    typeExprName (.nameExpression "number") ≠ some "undefined" ∧
    (countMsg ("Unexpected @" ++ (⟨"returns", "", some (.nameExpression "number"), none, 0⟩ : Tag).title ++
        " tag; function has no return statement.")
        (processTag ⟨false, true, []⟩ (some ⟨false⟩) 1 1 ["x"] ⟨false, false, []⟩
          ⟨"returns", "", some (.nameExpression "number"), none, 0⟩).outDiags = 1 ∧
     countMsg "Missing JSDoc return type."
        (processTag ⟨false, true, []⟩ (some ⟨false⟩) 1 1 ["x"] ⟨false, false, []⟩
          ⟨"returns", "", some (.nameExpression "number"), none, 0⟩).outDiags = 0 ∧
     countMsg "Missing JSDoc return description."
        (processTag ⟨false, true, []⟩ (some ⟨false⟩) 1 1 ["x"] ⟨false, false, []⟩
          ⟨"returns", "", some (.nameExpression "number"), none, 0⟩).outDiags = 0) :=
  ⟨rfl, rfl, Or.inr rfl, rfl, by decide, by decide,
   claim_C3_unexpected_return_tag ⟨false, true, []⟩ ⟨false⟩ 1 1 ["x"] ⟨false, false, []⟩
     ⟨"returns", "", some (.nameExpression "number"), none, 0⟩ (.nameExpression "number")
     rfl rfl (Or.inr rfl) rfl (by decide) (by decide)⟩

/-- Claim C6: a second param tag with the same non-dotted name triggers
exactly one "Duplicate JSDoc parameter" diagnostic, is not recorded, and
the first occurrence remains the registry entry the cross-check uses. -/
theorem claim_C6_duplicate_param (cfg : Config) (fdo : Option FunctionState) (sl : Nat)
    (st : TagState) (t₁ t₂ : Tag)
    (h₁ : t₁.title = "param") (h₂ : t₂.title = "param")
    (hn : t₂.name = t₁.name)
    (hdot : t₁.name.data.contains '.' = false)
    (hnew : lookupAssoc st.params t₁.name = none) :
    ∃ ds₁ ds₂,
      switchPart cfg fdo sl st t₁ =
        .ok ds₁ { st with params := st.params ++ [(t₁.name, t₁)] } ∧
      countMsg ("Duplicate JSDoc parameter \"" ++ t₁.name ++ "\".") ds₁ = 0 ∧
      switchPart cfg fdo sl { st with params := st.params ++ [(t₁.name, t₁)] } t₂ =
        .ok ds₂ { st with params := st.params ++ [(t₁.name, t₁)] } ∧
      countMsg ("Duplicate JSDoc parameter \"" ++ t₂.name ++ "\".") ds₂ = 1 ∧
      lookupAssoc (st.params ++ [(t₁.name, t₁)]) t₁.name = some t₁ := by
  have hrec : lookupAssoc (st.params ++ [(t₁.name, t₁)]) t₁.name = some t₁ :=
    lookupAssoc_append_self _ _ _ hnew
  have hl₂ : lookupAssoc (st.params ++ [(t₁.name, t₁)]) t₂.name = some t₁ := by
    rw [hn]
    exact hrec
  refine ⟨(paramTagCheck cfg sl st t₁).1,
    (paramTagCheck cfg sl { st with params := st.params ++ [(t₁.name, t₁)] } t₂).1,
    ?_, ?_, ?_, ?_, hrec⟩
  · have e₁ : (paramTagCheck cfg sl st t₁).2 =
        { st with params := st.params ++ [(t₁.name, t₁)] } := by
      simp only [paramTagCheck, hnew, Option.isSome_none, Bool.false_eq_true, if_false, hdot]
    rw [switchPart, if_pos h₁]
    simp only [e₁]
  · simp only [paramTagCheck, hnew, Option.isSome_none, Bool.false_eq_true, if_false,
      hdot, countMsg]
    split_ifs <;>
      simp [List.countP_append, List.countP_cons,
        beq_msg_false ("Missing JSDoc parameter type for \"" ++ t₁.name ++ "\".")
          ("Duplicate JSDoc parameter \"" ++ t₁.name ++ "\".") 0 'M' 'D' rfl rfl (by decide),
        beq_msg_false ("Missing JSDoc parameter description for \"" ++ t₁.name ++ "\".")
          ("Duplicate JSDoc parameter \"" ++ t₁.name ++ "\".") 0 'M' 'D' rfl rfl (by decide)]
  · have e₂ : (paramTagCheck cfg sl { st with params := st.params ++ [(t₁.name, t₁)] } t₂).2 =
        { st with params := st.params ++ [(t₁.name, t₁)] } := by
      simp only [paramTagCheck, hl₂, Option.isSome_some, if_true]
    rw [switchPart, if_pos h₂]
    simp only [e₂]
  · simp only [paramTagCheck, hl₂, Option.isSome_some, if_true, countMsg]
    split_ifs <;>
      simp [List.countP_append, List.countP_cons,
        beq_msg_false ("Missing JSDoc parameter type for \"" ++ t₂.name ++ "\".")
          ("Duplicate JSDoc parameter \"" ++ t₂.name ++ "\".") 0 'M' 'D' rfl rfl (by decide),
        beq_msg_false ("Missing JSDoc parameter description for \"" ++ t₂.name ++ "\".")
          ("Duplicate JSDoc parameter \"" ++ t₂.name ++ "\".") 0 'M' 'D' rfl rfl (by decide)]

theorem claim_C6_duplicate_param_witness :
    ((⟨"param", "x", some .otherType, some "d", 0⟩ : Tag).title = "param") ∧
    ((⟨"param", "x", some .otherType, some "d", 1⟩ : Tag).title = "param") ∧
    ((⟨"param", "x", some .otherType, some "d", 1⟩ : Tag).name =
      (⟨"param", "x", some .otherType, some "d", 0⟩ : Tag).name) ∧
    ((⟨"param", "x", some .otherType, some "d", 0⟩ : Tag).name.data.contains '.' = false) ∧
    (lookupAssoc (⟨false, false, []⟩ : TagState).params
      (⟨"param", "x", some .otherType, some "d", 0⟩ : Tag).name = none) ∧
    (∃ ds₁ ds₂,
      switchPart ⟨true, true, []⟩ none 0 ⟨false, false, []⟩
          ⟨"param", "x", some .otherType, some "d", 0⟩ =
        .ok ds₁ { (⟨false, false, []⟩ : TagState) with
          params := (⟨false, false, []⟩ : TagState).params ++
            [((⟨"param", "x", some .otherType, some "d", 0⟩ : Tag).name,
              ⟨"param", "x", some .otherType, some "d", 0⟩)] } ∧
      countMsg ("Duplicate JSDoc parameter \"" ++
          (⟨"param", "x", some .otherType, some "d", 0⟩ : Tag).name ++ "\".") ds₁ = 0 ∧
      switchPart ⟨true, true, []⟩ none 0
          { (⟨false, false, []⟩ : TagState) with
            params := (⟨false, false, []⟩ : TagState).params ++
              [((⟨"param", "x", some .otherType, some "d", 0⟩ : Tag).name,
                ⟨"param", "x", some .otherType, some "d", 0⟩)] }
          ⟨"param", "x", some .otherType, some "d", 1⟩ =
        .ok ds₂ { (⟨false, false, []⟩ : TagState) with
          params := (⟨false, false, []⟩ : TagState).params ++
            [((⟨"param", "x", some .otherType, some "d", 0⟩ : Tag).name,
              ⟨"param", "x", some .otherType, some "d", 0⟩)] } ∧
      countMsg ("Duplicate JSDoc parameter \"" ++
          (⟨"param", "x", some .otherType, some "d", 1⟩ : Tag).name ++ "\".") ds₂ = 1 ∧
      lookupAssoc ((⟨false, false, []⟩ : TagState).params ++
          [((⟨"param", "x", some .otherType, some "d", 0⟩ : Tag).name,
            ⟨"param", "x", some .otherType, some "d", 0⟩)])
        (⟨"param", "x", some .otherType, some "d", 0⟩ : Tag).name =
        some ⟨"param", "x", some .otherType, some "d", 0⟩) :=
  ⟨rfl, rfl, rfl, by decide, rfl,
   claim_C6_duplicate_param ⟨true, true, []⟩ none 0 ⟨false, false, []⟩
     ⟨"param", "x", some .otherType, some "d", 0⟩
     ⟨"param", "x", some .otherType, some "d", 1⟩
     rfl rfl rfl (by decide) rfl⟩

/-- Claim C8: a tag of any title with a simple named type whose lowercased
name is a key of the canonical map, spelled differently from the canonical
form, yields exactly one "Expected JSDoc type name" diagnostic; its found
value is the author's original spelling and its column is the comment's
start column plus one plus the index of the written name within the
comment line at the tag's offset. -/
theorem claim_C8_type_name_normalization (cfg : Config) (fd : FunctionState)
    (sl col0 : Nat) (lines : List String) (st : TagState) (tag : Tag)
    (n canon ln : String)
    (hty : tag.type = some (.nameExpression n))
    (hmap : typeNameMap (lowerStr n) = some canon)
    (hne : n ≠ canon)
    (hln : lines[tag.lineNumber]? = some ln) :
    countMsg ("Expected JSDoc type name \"" ++ canon ++ "\" but found \"" ++ n ++ "\".")
        (processTag cfg (some fd) sl (col0 + 1) lines st tag).outDiags = 1 ∧
    (⟨some ⟨.num (sl + tag.lineNumber),
        some (.num ((col0 : Int) + 1 + jsIndexOf ln n))⟩,
      "Expected JSDoc type name \"" ++ canon ++ "\" but found \"" ++ n ++ "\"."⟩ : Diagnostic) ∈
      (processTag cfg (some fd) sl (col0 + 1) lines st tag).outDiags := by
  have htc : typeCheck sl (col0 + 1) lines tag =
      .ok [⟨some ⟨.num (sl + tag.lineNumber),
          some (.num ((col0 : Int) + 1 + jsIndexOf ln n))⟩,
        "Expected JSDoc type name \"" ++ canon ++ "\" but found \"" ++ n ++ "\"."⟩] := by
    simp only [typeCheck, hty, hmap]
    rw [if_pos hne, hln]
    norm_cast
  obtain ⟨ds, st', hsw, hcnt⟩ := switchPart_type_some cfg fd sl st tag (.nameExpression n) hty
    ("Expected JSDoc type name \"" ++ canon ++ "\" but found \"" ++ n ++ "\".")
    (beq_msg_false "Missing JSDoc return type."
      ("Expected JSDoc type name \"" ++ canon ++ "\" but found \"" ++ n ++ "\".")
      0 'M' 'E' rfl rfl (by decide))
    (beq_msg_false "Missing JSDoc return description."
      ("Expected JSDoc type name \"" ++ canon ++ "\" but found \"" ++ n ++ "\".")
      0 'M' 'E' rfl rfl (by decide))
    (beq_msg_false ("Unexpected @" ++ tag.title ++ " tag; function has no return statement.")
      ("Expected JSDoc type name \"" ++ canon ++ "\" but found \"" ++ n ++ "\".")
      0 'U' 'E' rfl rfl (by decide))
    (beq_msg_false ("Missing JSDoc parameter type for \"" ++ tag.name ++ "\".")
      ("Expected JSDoc type name \"" ++ canon ++ "\" but found \"" ++ n ++ "\".")
      0 'M' 'E' rfl rfl (by decide))
    (beq_msg_false ("Missing JSDoc parameter description for \"" ++ tag.name ++ "\".")
      ("Expected JSDoc type name \"" ++ canon ++ "\" but found \"" ++ n ++ "\".")
      0 'M' 'E' rfl rfl (by decide))
    (beq_msg_false ("Duplicate JSDoc parameter \"" ++ tag.name ++ "\".")
      ("Expected JSDoc type name \"" ++ canon ++ "\" but found \"" ++ n ++ "\".")
      0 'D' 'E' rfl rfl (by decide))
  have hpd : countMsg ("Expected JSDoc type name \"" ++ canon ++ "\" but found \"" ++ n ++ "\".")
      (preferDiags cfg sl tag) = 0 :=
    countMsg_preferDiags cfg sl tag _
      (fun p => beq_msg_false ("Use @" ++ p ++ " instead.")
        ("Expected JSDoc type name \"" ++ canon ++ "\" but found \"" ++ n ++ "\".")
        0 'U' 'E' rfl rfl (by decide))
  have hpt : (processTag cfg (some fd) sl (col0 + 1) lines st tag).outDiags =
      ds ++ preferDiags cfg sl tag ++
        [⟨some ⟨.num (sl + tag.lineNumber),
            some (.num ((col0 : Int) + 1 + jsIndexOf ln n))⟩,
          "Expected JSDoc type name \"" ++ canon ++ "\" but found \"" ++ n ++ "\"."⟩] := by
    simp only [processTag, hsw, htc, TagsOutcome.outDiags]
  rw [hpt]
  constructor
  · rw [countMsg_append, countMsg_append, hcnt, hpd]
    simp [countMsg, List.countP_cons]
  · simp

theorem claim_C8_type_name_normalization_witness :
    ((⟨"param", "x", some (.nameExpression "String"), some "y", 1⟩ : Tag).type =
      some (.nameExpression "String")) ∧
    typeNameMap (lowerStr "String") = some "string" ∧
    "String" ≠ "string" ∧
    (["*", " * @param x String y"][(⟨"param", "x", some (.nameExpression "String"), some "y", 1⟩ :
      Tag).lineNumber]? = some " * @param x String y") ∧
    (countMsg ("Expected JSDoc type name \"" ++ "string" ++ "\" but found \"" ++ "String" ++ "\".")
        (processTag ⟨true, true, []⟩ (some ⟨false⟩) 5 (2 + 1) ["*", " * @param x String y"]
          ⟨false, false, []⟩
          ⟨"param", "x", some (.nameExpression "String"), some "y", 1⟩).outDiags = 1 ∧
     (⟨some ⟨.num (5 + (⟨"param", "x", some (.nameExpression "String"), some "y", 1⟩ :
          Tag).lineNumber),
        some (.num ((2 : Int) + 1 + jsIndexOf " * @param x String y" "String"))⟩,
       "Expected JSDoc type name \"" ++ "string" ++ "\" but found \"" ++ "String" ++ "\"."⟩ :
       Diagnostic) ∈
       (processTag ⟨true, true, []⟩ (some ⟨false⟩) 5 (2 + 1) ["*", " * @param x String y"]
         ⟨false, false, []⟩
         ⟨"param", "x", some (.nameExpression "String"), some "y", 1⟩).outDiags) :=
  ⟨rfl, by decide, by decide, rfl,
   claim_C8_type_name_normalization ⟨true, true, []⟩ ⟨false⟩ 5 2 ["*", " * @param x String y"]
     ⟨false, false, []⟩ ⟨"param", "x", some (.nameExpression "String"), some "y", 1⟩
     "String" "string" " * @param x String y" rfl (by decide) (by decide) rfl⟩

theorem claim_C5_undocumented_param_witness :
    lookupAssoc [("q", (⟨"param", "q", none, none, 0⟩ : Tag))] "z" = none ∧
    (∀ dn, (([("q", (⟨"param", "q", none, none, 0⟩ : Tag))]).map Prod.fst)[5]? = some dn →
      dn = "z") ∧
    checkParamAt 1 [("q", (⟨"param", "q", none, none, 0⟩ : Tag))] 5 "z" =
      [⟨none, "Missing JSDoc for parameter \"z\"."⟩] :=
  ⟨by decide, by intro dn h; simp at h,
   claim_C5_undocumented_param 1 [("q", ⟨"param", "q", none, none, 0⟩)] 5 "z"
     (by decide) (by intro dn h; simp at h)⟩

end ValidJsdoc
